import Mathlib

/-!
Shallow embedding of `alvr/experiments/graphics_tests/src/compositor/convert.rs`,
the graphics-API interoperability bridge of the ALVR compositor, together with
proofs of the specified properties.

Native handles (Vulkan objects), native calls (instance/device/image creation)
and the wgpu abstraction layer are modelled as opaque records and explicit
oracle functions supplied as parameters; pointer-based lists
(`pp_enabled_extension_names` + count) are modelled as Lean lists; Vulkan
`Bool32` feature fields are modelled as `Bool`; fallible native calls return
`Except String` mirroring the Rust `StrResult`.  An operation that can panic
(Rust `Vec::remove` with an out-of-range index) is given a third outcome
constructor, `crash`, distinct from a typed error.
-/

namespace Convert

/-- Rust `StrResult<T>` from `alvr_common`: `Result<T, String>`. -/
abbrev StrResult (α : Type) := Except String α

/-- Rust `trace_err!` from `alvr_common`: wraps any error with a human-readable
context message preserving the inner error text, and passes `Ok` through. -/
def trace_err {α : Type} (ctx : String) (r : StrResult α) : StrResult α :=
  match r with
  | .ok a => .ok a
  | .error e => .error (ctx ++ ": " ++ e)

/-- Outcome of an operation that can also panic (crash the process), in
addition to succeeding or returning a typed failure result.  `crash` models a
Rust panic such as an out-of-bounds `Vec::remove`. -/
inductive Outcome (α : Type) where
  | ok : α → Outcome α
  | err : String → Outcome α
  | crash : Outcome α
deriving DecidableEq, Repr

/-- Whether an `Outcome` is a typed failure result. -/
def Outcome.isErr {α : Type} : Outcome α → Bool
  | .err _ => true
  | _ => false

/-- Opaque native physical-device handle (`vk::PhysicalDevice`). -/
structure PhysicalDevice where
  handle : Nat
deriving DecidableEq, Repr

/-- Rust `vk::make_api_version(variant, major, minor, patch)`: packed 32-bit
version encoding, numeric comparisons. -/
def make_api_version (variant major minor patch : Nat) : Nat :=
  (variant <<< 29) ||| (major <<< 22) ||| (minor <<< 12) ||| patch

/-- Rust `vk::API_VERSION_1_1`. -/
def API_VERSION_1_1 : Nat := make_api_version 0 1 1 0

/-- Rust `TARGET_VULKAN_VERSION = vk::make_api_version(1, 0, 0, 0)` (line 12). -/
def TARGET_VULKAN_VERSION : Nat := make_api_version 1 0 0 0

/-- Rust `khr::Swapchain::name()`. -/
def swapchain_extension_name : String := "VK_KHR_swapchain"

/-- Rust `vk::KhrMaintenance1Fn::name()`. -/
def maintenance1_extension_name : String := "VK_KHR_maintenance1"

/-- Rust `vk::KhrMaintenance2Fn::name()`. -/
def maintenance2_extension_name : String := "VK_KHR_maintenance2"

/-- Rust `get_vulkan_device_extensions` (lines 72-81): always the swapchain
extension; both maintenance extensions exactly when `version < API_VERSION_1_1`. -/
def get_vulkan_device_extensions (version : Nat) : List String :=
  let extensions := [swapchain_extension_name]
  if version < API_VERSION_1_1 then
    extensions ++ [maintenance1_extension_name, maintenance2_extension_name]
  else
    extensions

/-- Rust `get_vulkan_graphics_device` (lines 59-66).  The enumeration result of
`instance.enumerate_physical_devices()` is passed in explicitly (the native
instance is opaque); its failure is wrapped by `trace_err!` into a typed
failure.  `physical_devices.remove(adapter_index.unwrap_or(0))` panics when
the index is out of bounds, modelled by `Outcome.crash`. -/
def get_vulkan_graphics_device (enum_result : StrResult (List PhysicalDevice))
    (adapter_index : Option Nat) : Outcome PhysicalDevice :=
  match trace_err "enumerate_physical_devices" enum_result with
  | .error e => .err e
  | .ok physical_devices =>
      let i := adapter_index.getD 0
      if h : i < physical_devices.length then
        .ok (physical_devices.get ⟨i, h⟩)
      else
        .crash

/-- Rust `bitflags` `contains`: all bits of `flag` are set in `u`. -/
def contains (u flag : Nat) : Bool := u &&& flag == flag

-- `openxr_sys::SwapchainUsageFlags` bits (single bits, declaration order).
def xr_COLOR_ATTACHMENT : Nat := 1
def xr_DEPTH_STENCIL_ATTACHMENT : Nat := 2
def xr_UNORDERED_ACCESS : Nat := 4
def xr_TRANSFER_SRC : Nat := 8
def xr_TRANSFER_DST : Nat := 16
def xr_SAMPLED : Nat := 32
def xr_MUTABLE_FORMAT : Nat := 64
def xr_INPUT_ATTACHMENT : Nat := 128

-- `vk::ImageUsageFlags` bits.
def vk_TRANSFER_SRC : Nat := 1
def vk_TRANSFER_DST : Nat := 2
def vk_SAMPLED : Nat := 4
def vk_COLOR_ATTACHMENT : Nat := 16
def vk_DEPTH_STENCIL_ATTACHMENT : Nat := 32
def vk_INPUT_ATTACHMENT : Nat := 128

-- `wgpu_hal::TextureUses` bits (single bits, declaration order).
def hal_COPY_SRC : Nat := 1
def hal_COPY_DST : Nat := 2
def hal_RESOURCE : Nat := 4
def hal_COLOR_TARGET : Nat := 8
def hal_DEPTH_STENCIL_READ : Nat := 16
def hal_DEPTH_STENCIL_WRITE : Nat := 32

-- `wgpu::TextureUsages` bits.
def wgpu_COPY_SRC : Nat := 1
def wgpu_COPY_DST : Nat := 2
def wgpu_TEXTURE_BINDING : Nat := 4
def wgpu_RENDER_ATTACHMENT : Nat := 16

/-- The usage-flag translation block of `Compositor::create_swapchain`
(lines 276-318): starting from three empty bitsets, each set VR-runtime usage
bit ORs its mapped native (`vk_usage`), abstraction-layer (`hal_usage`) and
high-level (`wgpu_usage`) bits into the accumulators; `UNORDERED_ACCESS` and
`MUTABLE_FORMAT` are tested but map to nothing. -/
def translate_usage (usage : Nat) : Nat × Nat × Nat :=
  let vk_usage : Nat := 0
  let hal_usage : Nat := 0
  let wgpu_usage : Nat := 0
  let vk_usage := if contains usage xr_COLOR_ATTACHMENT then
    vk_usage ||| vk_COLOR_ATTACHMENT else vk_usage
  let hal_usage := if contains usage xr_COLOR_ATTACHMENT then
    hal_usage ||| hal_COLOR_TARGET else hal_usage
  let wgpu_usage := if contains usage xr_COLOR_ATTACHMENT then
    wgpu_usage ||| wgpu_RENDER_ATTACHMENT else wgpu_usage
  let vk_usage := if contains usage xr_DEPTH_STENCIL_ATTACHMENT then
    vk_usage ||| vk_DEPTH_STENCIL_ATTACHMENT else vk_usage
  let hal_usage := if contains usage xr_DEPTH_STENCIL_ATTACHMENT then
    hal_usage ||| (hal_DEPTH_STENCIL_READ ||| hal_DEPTH_STENCIL_WRITE) else hal_usage
  let wgpu_usage := if contains usage xr_DEPTH_STENCIL_ATTACHMENT then
    wgpu_usage ||| wgpu_RENDER_ATTACHMENT else wgpu_usage
  let vk_usage := if contains usage xr_TRANSFER_SRC then
    vk_usage ||| vk_TRANSFER_SRC else vk_usage
  let hal_usage := if contains usage xr_TRANSFER_SRC then
    hal_usage ||| hal_COPY_SRC else hal_usage
  let wgpu_usage := if contains usage xr_TRANSFER_SRC then
    wgpu_usage ||| wgpu_COPY_SRC else wgpu_usage
  let vk_usage := if contains usage xr_TRANSFER_DST then
    vk_usage ||| vk_TRANSFER_DST else vk_usage
  let hal_usage := if contains usage xr_TRANSFER_DST then
    hal_usage ||| hal_COPY_DST else hal_usage
  let wgpu_usage := if contains usage xr_TRANSFER_DST then
    wgpu_usage ||| wgpu_COPY_DST else wgpu_usage
  let vk_usage := if contains usage xr_SAMPLED then
    vk_usage ||| vk_SAMPLED else vk_usage
  let hal_usage := if contains usage xr_SAMPLED then
    hal_usage ||| hal_RESOURCE else hal_usage
  let wgpu_usage := if contains usage xr_SAMPLED then
    wgpu_usage ||| wgpu_TEXTURE_BINDING else wgpu_usage
  let vk_usage := if contains usage xr_INPUT_ATTACHMENT then
    vk_usage ||| vk_INPUT_ATTACHMENT else vk_usage
  (vk_usage, hal_usage, wgpu_usage)

/-- Componentwise bitwise union of two translation results. -/
def usage_union (x y : Nat × Nat × Nat) : Nat × Nat × Nat :=
  (x.1 ||| y.1, x.2.1 ||| y.2.1, x.2.2 ||| y.2.2)

/-- Closed form of `translate_usage` over its six effective condition bits. -/
def translateB (c d s t m i : Bool) : Nat × Nat × Nat :=
  let vk_usage : Nat := 0
  let hal_usage : Nat := 0
  let wgpu_usage : Nat := 0
  let vk_usage := if c then vk_usage ||| vk_COLOR_ATTACHMENT else vk_usage
  let hal_usage := if c then hal_usage ||| hal_COLOR_TARGET else hal_usage
  let wgpu_usage := if c then wgpu_usage ||| wgpu_RENDER_ATTACHMENT else wgpu_usage
  let vk_usage := if d then vk_usage ||| vk_DEPTH_STENCIL_ATTACHMENT else vk_usage
  let hal_usage := if d then
    hal_usage ||| (hal_DEPTH_STENCIL_READ ||| hal_DEPTH_STENCIL_WRITE) else hal_usage
  let wgpu_usage := if d then wgpu_usage ||| wgpu_RENDER_ATTACHMENT else wgpu_usage
  let vk_usage := if s then vk_usage ||| vk_TRANSFER_SRC else vk_usage
  let hal_usage := if s then hal_usage ||| hal_COPY_SRC else hal_usage
  let wgpu_usage := if s then wgpu_usage ||| wgpu_COPY_SRC else wgpu_usage
  let vk_usage := if t then vk_usage ||| vk_TRANSFER_DST else vk_usage
  let hal_usage := if t then hal_usage ||| hal_COPY_DST else hal_usage
  let wgpu_usage := if t then wgpu_usage ||| wgpu_COPY_DST else wgpu_usage
  let vk_usage := if m then vk_usage ||| vk_SAMPLED else vk_usage
  let hal_usage := if m then hal_usage ||| hal_RESOURCE else hal_usage
  let wgpu_usage := if m then wgpu_usage ||| wgpu_TEXTURE_BINDING else wgpu_usage
  let vk_usage := if i then vk_usage ||| vk_INPUT_ATTACHMENT else vk_usage
  (vk_usage, hal_usage, wgpu_usage)

lemma contains_two_pow (u k : Nat) : contains u (2 ^ k) = u.testBit k := by
  unfold contains
  rcases h : u.testBit k with _ | _ <;>
    simp [Nat.and_two_pow, h, (Nat.two_pow_pos k).ne]

lemma translate_usage_eq_translateB (u : Nat) :
    translate_usage u = translateB (u.testBit 0) (u.testBit 1) (u.testBit 3)
      (u.testBit 4) (u.testBit 5) (u.testBit 7) := by
  have e0 : contains u xr_COLOR_ATTACHMENT = u.testBit 0 := by
    simpa [xr_COLOR_ATTACHMENT] using contains_two_pow u 0
  have e1 : contains u xr_DEPTH_STENCIL_ATTACHMENT = u.testBit 1 := by
    simpa [xr_DEPTH_STENCIL_ATTACHMENT] using contains_two_pow u 1
  have e3 : contains u xr_TRANSFER_SRC = u.testBit 3 := by
    simpa [xr_TRANSFER_SRC] using contains_two_pow u 3
  have e4 : contains u xr_TRANSFER_DST = u.testBit 4 := by
    simpa [xr_TRANSFER_DST] using contains_two_pow u 4
  have e5 : contains u xr_SAMPLED = u.testBit 5 := by
    simpa [xr_SAMPLED] using contains_two_pow u 5
  have e7 : contains u xr_INPUT_ATTACHMENT = u.testBit 7 := by
    simpa [xr_INPUT_ATTACHMENT] using contains_two_pow u 7
  simp only [translate_usage, translateB, e0, e1, e3, e4, e5, e7]

lemma translateB_additive (c₁ d₁ s₁ t₁ m₁ i₁ c₂ d₂ s₂ t₂ m₂ i₂ : Bool) :
    usage_union (translateB c₁ d₁ s₁ t₁ m₁ i₁) (translateB c₂ d₂ s₂ t₂ m₂ i₂) =
      translateB (c₁ || c₂) (d₁ || d₂) (s₁ || s₂) (t₁ || t₂) (m₁ || m₂)
        (i₁ || i₂) := by
  revert c₁ d₁ s₁ t₁ m₁ i₁ c₂ d₂ s₂ t₂ m₂ i₂
  decide

/-- Opaque native logical-device handle (`ash::Device`). -/
structure Device where
  handle : Nat
deriving DecidableEq, Repr

/-- Opaque native instance handle (`ash::Instance`). -/
structure NativeInstance where
  handle : Nat
deriving DecidableEq, Repr

/-- Rust `vk::PhysicalDeviceFeatures`: the first ten `Bool32` feature fields in
declaration order (the remaining fields of the Vulkan struct behave exactly
like the seven non-forced ones modelled here: `create_vulkan_device` never
touches them). -/
structure PhysicalDeviceFeatures where
  robust_buffer_access : Bool
  full_draw_index_uint32 : Bool
  image_cube_array : Bool
  independent_blend : Bool
  geometry_shader : Bool
  tessellation_shader : Bool
  sample_rate_shading : Bool
  dual_src_blend : Bool
  logic_op : Bool
  multi_draw_indirect : Bool
deriving DecidableEq, Repr

/-- Rust `vk::DeviceQueueCreateInfo` (queue priorities are floats in the source
and are modelled by their count only). -/
structure DeviceQueueCreateInfo where
  queue_family_index : Nat
  queue_priority_count : Nat
deriving DecidableEq, Repr

/-- Rust `vk::DeviceCreateInfo`.  The pointer/count pairs are modelled as lists
(`enabled_extension_count` is the list length); `p_enabled_features` is a
pointer into the caller's memory, so the features record here stands for the
pointed-to struct. -/
structure DeviceCreateInfo where
  flags : Nat
  queue_create_infos : List DeviceQueueCreateInfo
  enabled_layer_names : List String
  pp_enabled_extension_names : List String
  p_enabled_features : PhysicalDeviceFeatures
deriving DecidableEq, Repr

/-- Result of `create_vulkan_device` (lines 84-122): the returned
`StrResult`, the `DeviceCreateInfo` actually passed to the native
`create_device` call (issued through a null instance handle, modelled as the
`create_device` oracle), and the caller's `DeviceCreateInfo` as seen through
its `p_enabled_features` pointer after the call returns. -/
structure DeviceCreateOutcome where
  result : StrResult Device
  issued_physical_device : PhysicalDevice
  issued_info : DeviceCreateInfo
  caller_info : DeviceCreateInfo
deriving Repr

/-- Rust `create_vulkan_device` (lines 84-122): prepends
`get_vulkan_device_extensions version` to the caller's extensions, writes the
three forced feature bits through the caller's `p_enabled_features` pointer,
then issues one native device-creation call with the merged extension list and
all other fields of `create_info` unchanged. -/
def create_vulkan_device
    (create_device : PhysicalDevice → DeviceCreateInfo → StrResult Device)
    (version : Nat) (physical_device : PhysicalDevice)
    (create_info : DeviceCreateInfo) : DeviceCreateOutcome :=
  let extensions_ptrs :=
    get_vulkan_device_extensions version ++ create_info.pp_enabled_extension_names
  let features_ref := create_info.p_enabled_features
  let features_ref := { features_ref with robust_buffer_access := true }
  let features_ref := { features_ref with independent_blend := true }
  let features_ref := { features_ref with sample_rate_shading := true }
  let caller_info := { create_info with p_enabled_features := features_ref }
  let issued_info := { caller_info with pp_enabled_extension_names := extensions_ptrs }
  { result := trace_err "create_device" (create_device physical_device issued_info)
    issued_physical_device := physical_device
    issued_info := issued_info
    caller_info := caller_info }

-- `wgpu_hal::InstanceFlags` bits (declaration order).
def halflags_DEBUG : Nat := 1
def halflags_VALIDATION : Nat := 2

/-- Rust `vk::ApplicationInfo` (fields other than `api_version` are never read by
this module and pass through opaquely). -/
structure ApplicationInfo where
  application_name : String
  application_version : Nat
  engine_name : String
  engine_version : Nat
  api_version : Nat
deriving DecidableEq, Repr

/-- Rust `vk::InstanceCreateInfo`; pointer/count pairs modelled as lists,
`p_application_info` as the pointed-to record (the source dereferences it
unconditionally). -/
structure InstanceCreateInfo where
  flags : Nat
  p_application_info : ApplicationInfo
  enabled_layer_names : List String
  pp_enabled_extension_names : List String
deriving DecidableEq, Repr

/-- Rust `get_vulkan_instance_extensions` (lines 15-26): builds the hal instance
flags (validation + debug under `cfg!(debug_assertions)`) and queries the
abstraction layer's `required_extensions` oracle, wrapping any failure with
`trace_err!`. -/
def get_vulkan_instance_extensions
    (required_extensions : Nat → Nat → StrResult (List String))
    (debug_assertions : Bool) (version : Nat) : StrResult (List String) :=
  let flags : Nat := 0
  let flags := if debug_assertions then flags ||| halflags_VALIDATION else flags
  let flags := if debug_assertions then flags ||| halflags_DEBUG else flags
  trace_err "required_extensions" (required_extensions version flags)

/-- Result of `create_vulkan_instance`: the returned `StrResult` and the list
of native instance-creation calls issued (by their `InstanceCreateInfo`). -/
structure InstanceCreateOutcome where
  result : StrResult NativeInstance
  issued_calls : List InstanceCreateInfo

/-- Rust `create_vulkan_instance` (lines 29-56): computes the resolver-required
instance extensions from `(*info.p_application_info).api_version`, appends the
caller-supplied extensions after them, and issues a single native
instance-creation call with the merged list, every other field of `info`
unchanged (`..*info`). -/
def create_vulkan_instance
    (required_extensions : Nat → Nat → StrResult (List String))
    (debug_assertions : Bool)
    (do_create : InstanceCreateInfo → StrResult NativeInstance)
    (info : InstanceCreateInfo) : InstanceCreateOutcome :=
  match get_vulkan_instance_extensions required_extensions debug_assertions
      info.p_application_info.api_version with
  | .error e => { result := .error e, issued_calls := [] }
  | .ok extensions =>
      let extensions_ptrs := extensions ++ info.pp_enabled_extension_names
      let issued := { info with pp_enabled_extension_names := extensions_ptrs }
      { result := trace_err "create_instance" (do_create issued)
        issued_calls := [issued] }

/-- Opaque native image handle (`vk::Image`). -/
structure Image where
  handle : Nat
deriving DecidableEq, Repr

/-- Opaque native memory-block handle (the source never creates any:
`todo: add memory block`). -/
structure MemoryBlock where
  handle : Nat
deriving DecidableEq, Repr

-- Vulkan enum/flag values used by `create_swapchain`.
def vkflags_CUBE_COMPATIBLE : Nat := 16
def vk_TYPE_2D : Nat := 1
def vk_TILING_OPTIMAL : Nat := 0
def vk_SHARING_EXCLUSIVE : Nat := 0
def vk_LAYOUT_UNDEFINED : Nat := 0

/-- Rust `vk::Extent3D`. -/
structure Extent3D where
  width : Nat
  height : Nat
  depth : Nat
deriving DecidableEq, Repr

/-- Rust `vk::ImageCreateInfo` as built by `create_swapchain` (lines 339-354);
formats, tiling, sharing mode and layout are modelled by their enum values,
`samples` by the raw sample-count bits. -/
structure ImageCreateInfo where
  flags : Nat
  image_type : Nat
  format : Nat
  extent : Extent3D
  mip_levels : Nat
  array_layers : Nat
  samples : Nat
  tiling : Nat
  usage : Nat
  sharing_mode : Nat
  initial_layout : Nat
deriving DecidableEq, Repr

/-- Rust `wgpu::TextureDimension`. -/
inductive TextureDimension where
  | D1
  | D2
  | D3
deriving DecidableEq, Repr

/-- Rust `wgpu::Extent3d`. -/
structure Extent3d where
  width : Nat
  height : Nat
  depth_or_array_layers : Nat
deriving DecidableEq, Repr

/-- Rust `wgpu_hal::TextureDescriptor` as built at lines 374-387 (the `label` is
always `None` and is omitted; `format` is the `TextureFormat` code). -/
structure HalTextureDescriptor where
  size : Extent3d
  mip_level_count : Nat
  sample_count : Nat
  dimension : TextureDimension
  format : Nat
  usage : Nat
  memory_flags : Nat
deriving DecidableEq, Repr

/-- Rust `wgpu::TextureDescriptor` as built at lines 397-409. -/
structure WgpuTextureDescriptor where
  size : Extent3d
  mip_level_count : Nat
  sample_count : Nat
  dimension : TextureDimension
  format : Nat
  usage : Nat
deriving DecidableEq, Repr

/-- An abstraction-layer texture produced by importing a native image
(`texture_from_raw` + `create_texture_from_hal`, lines 371-411), modelled at
the interface boundary by the data this module passes in.  `drop_guard`
records whether a drop guard was supplied (`(!owned).then(...)`): when a guard
is present the abstraction layer must NOT destroy the raw image (ownership
Borrowed); with no guard it destroys the image on drop (ownership Owned). -/
structure Texture where
  raw_image : Image
  hal_desc : HalTextureDescriptor
  wgpu_desc : WgpuTextureDescriptor
  drop_guard : Bool
deriving DecidableEq, Repr

/-- Ownership of the underlying native image resolved to Borrowed. -/
def Texture.borrowed (t : Texture) : Bool := t.drop_guard

/-- Rust `SwapchainCreateData` (lines 248-257). -/
inductive SwapchainCreateData where
  | External (images : List Image)
  | Count (count : Nat)
  | None
deriving DecidableEq, Repr

/-- Modelled from the spec: the `Swapchain` struct and the `self.swapchain`
assembler live in the parent compositor module, which is not part of this
source file; §3 and §4.6 step 4 give
`Swapchain{textures, rawImages, memoryBlocks, arraySize}`. -/
structure Swapchain where
  textures : List Texture
  raw_images : List Image
  memory : List MemoryBlock
  array_size : Nat
deriving DecidableEq, Repr

/-- The image-allocation loop of `create_swapchain` (lines 334-362): one
native `create_image` call per iteration, pushing each image in order and
aborting the whole construction on the first wrapped failure.  The native
device is modelled as an oracle indexed by the call number, so successive
calls may yield distinct handles. -/
def alloc_images (create_image : Nat → ImageCreateInfo → StrResult Image)
    (info : ImageCreateInfo) : Nat → Nat → StrResult (List Image)
  | _, 0 => .ok []
  | call_index, n + 1 =>
    match trace_err "create_image" (create_image call_index info) with
    | .error e => .error e
    | .ok image =>
        match alloc_images create_image info (call_index + 1) n with
        | .error e => .error e
        | .ok images => .ok (image :: images)

/-- Rust `Compositor::create_swapchain` (lines 261-416).  The compositor context's
raw device is represented by the `create_image` oracle; `format` is the
`TextureFormat` code and `vk_format` the `vk::Format` code. -/
def create_swapchain (create_image : Nat → ImageCreateInfo → StrResult Image)
    (data : SwapchainCreateData) (usage : Nat) (format : Nat) (vk_format : Nat)
    (sample_count : Nat) (width : Nat) (height : Nat) (cubemap : Bool)
    (array_size : Nat) (mip_count : Nat) : StrResult Swapchain :=
  let owned : Bool := !(match data with | .External _ => true | _ => false)
  let usages := translate_usage usage
  let vk_usage := usages.1
  let hal_usage := usages.2.1
  let wgpu_usage := usages.2.2
  let raw_images_memory : StrResult (List Image × List MemoryBlock) :=
    match data with
    | .External images => .ok (images, [])
    | other =>
        let count := match other with | .Count count => count | _ => 2
        let flags := if cubemap then vkflags_CUBE_COMPATIBLE else 0
        let info : ImageCreateInfo :=
          { flags := flags
            image_type := vk_TYPE_2D
            format := vk_format
            extent := { width := width, height := height, depth := 1 }
            mip_levels := mip_count
            array_layers := array_size
            samples := sample_count
            tiling := vk_TILING_OPTIMAL
            usage := vk_usage
            sharing_mode := vk_SHARING_EXCLUSIVE
            initial_layout := vk_LAYOUT_UNDEFINED }
        match alloc_images create_image info 0 count with
        | .error e => .error e
        | .ok images => .ok (images, [])
  match raw_images_memory with
  | .error e => .error e
  | .ok (raw_images, memory) =>
      let textures := raw_images.map (fun image =>
        ({ raw_image := image
           hal_desc :=
             { size :=
                 { width := width, height := height
                   depth_or_array_layers := array_size }
               mip_level_count := mip_count
               sample_count := sample_count
               dimension := TextureDimension.D2
               format := format
               usage := hal_usage
               memory_flags := 0 }
           wgpu_desc :=
             { size :=
                 { width := width, height := height
                   depth_or_array_layers := array_size }
               mip_level_count := mip_count
               sample_count := sample_count
               dimension := TextureDimension.D2
               format := format
               usage := wgpu_usage }
           drop_guard := !owned } : Texture))
      .ok ⟨textures, raw_images, memory, array_size⟩

/-- Rust `trace_none!` from `alvr_common`: turns `None` into a typed failure with
a context message. -/
def trace_none {α : Type} (ctx : String) (o : Option α) : StrResult α :=
  match o with
  | some a => .ok a
  | none => .error (ctx ++ ": none")

/-- A hal Vulkan instance wrapping a raw native instance.  `destroy_on_drop`
records the ownership the import was performed with. -/
structure HalInstance where
  raw : NativeInstance
  version : Nat
  extensions : List String
  flags : Nat
  destroy_on_drop : Bool
deriving DecidableEq, Repr

/-- Modelled from the spec: `wgpu_hal` `Instance::from_raw` is an external
collaborator (§6: instance-from-native import operation "parameterized by an
ownership flag"; §9: the guard's release is a no-op when Borrowed).  The drop
guard `from_vulkan` passes (`owned.then(|| Box::new(()) as _)`, line 153)
therefore marks whether wgpu owns — and destroys on drop — the wrapped native
instance.  An injected failure models the fallible native call. -/
def hal_instance_from_raw (fails : Option String) (raw : NativeInstance)
    (version : Nat) (extensions : List String) (flags : Nat)
    (owned_guard : Bool) : StrResult HalInstance :=
  match fails with
  | some e => .error e
  | none => .ok ⟨raw, version, extensions, flags, owned_guard⟩

/-- An adapter exposed from a native physical device. -/
structure ExposedAdapter where
  physical_device : PhysicalDevice
deriving DecidableEq, Repr

/-- Modelled from the spec: `expose_adapter` is an external collaborator
returning `None` when the native physical device is incompatible with the
abstraction layer (§4.4 `AdapterExposureError`); compatibility is an oracle. -/
def expose_adapter (compatible : PhysicalDevice → Bool)
    (physical_device : PhysicalDevice) : Option ExposedAdapter :=
  if compatible physical_device then some ⟨physical_device⟩ else none

/-- A hal open device wrapping a raw native device; `handle_is_owned` is the
ownership flag `device_from_raw` was called with. -/
structure OpenDevice where
  raw : Device
  handle_is_owned : Bool
  extensions : List String
  queue_family_index : Nat
  queue_index : Nat
deriving DecidableEq, Repr

/-- Modelled from the spec: `adapter.device_from_raw` is an external
collaborator (§6: device-from-native import parameterized by an ownership
flag); wgpu destroys the raw device on drop only when `handle_is_owned`. -/
def device_from_raw (fails : Option String) (raw : Device)
    (handle_is_owned : Bool) (extensions : List String)
    (queue_family_index queue_index : Nat) : StrResult OpenDevice :=
  match fails with
  | some e => .error e
  | none => .ok ⟨raw, handle_is_owned, extensions, queue_family_index, queue_index⟩

/-- Rust `wgpu::Instance` built by `Instance::from_hal`. -/
structure WgpuInstance where
  hal : HalInstance
deriving DecidableEq, Repr

/-- Rust `wgpu::Adapter` built by `create_adapter_from_hal`. -/
structure WgpuAdapter where
  exposed : ExposedAdapter
deriving DecidableEq, Repr

/-- Rust `wgpu::Device` built by `create_device_from_hal`. -/
structure WgpuDevice where
  open_device : OpenDevice
  features : Nat
  limits : Nat
deriving DecidableEq, Repr

/-- Rust `wgpu::Queue` built by `create_device_from_hal`. -/
structure WgpuQueue where
  queue_family_index : Nat
  queue_index : Nat
deriving DecidableEq, Repr

/-- Rust `wgpu::Features::PUSH_CONSTANTS` (a single feature bit; its numeric
position is immaterial here). -/
def features_PUSH_CONSTANTS : Nat := 1

/-- Modelled from the spec: `adapter.create_device_from_hal` is an external
collaborator wrapping the open device into abstraction-layer Device/Queue
handles with the requested features and the adapter's limits (§4.4). -/
def create_device_from_hal (fails : Option String) (adapter : WgpuAdapter)
    (open_device : OpenDevice) (features : Nat) (limits : Nat) :
    StrResult (WgpuDevice × WgpuQueue) :=
  match fails with
  | some e => .error e
  | none =>
      .ok (⟨open_device, features, limits⟩,
        ⟨open_device.queue_family_index, open_device.queue_index⟩)

/-- The native/abstraction-layer environment `from_vulkan` runs against:
oracles for the resolver query, physical-device enumeration and adapter
compatibility, plus injectable failures for the three fallible import calls. -/
structure VulkanEnv where
  debug_assertions : Bool
  required_extensions : Nat → Nat → StrResult (List String)
  enumerate_physical_devices : StrResult (List PhysicalDevice)
  compatible : PhysicalDevice → Bool
  from_raw_fails : Option String
  device_from_raw_fails : Option String
  create_device_from_hal_fails : Option String
  adapter_limits : Nat

/-- Rust `Context` (lines 184-189): wgpu instance/device/queue plus the raw native
device kept for interop (`raw_device`).  The source field `instance` is a
reserved word in Lean and is spelled `instance_`. -/
structure Context where
  instance_ : WgpuInstance
  device : WgpuDevice
  queue : WgpuQueue
  raw_device : Device
deriving DecidableEq, Repr

/-- Rust `Context::from_vulkan` (lines 128-190): wraps the supplied native
instance and device for the abstraction layer, threading `owned` into
every import (`owned.then(...)` for the instance guard, `owned` for
`device_from_raw`), re-derives the physical device, exposes the adapter, and
composes the wgpu Instance/Adapter/Device/Queue into a `Context`.  A crash of
`get_vulkan_graphics_device` propagates as a crash. -/
def from_vulkan (env : VulkanEnv) (owned : Bool) (version : Nat)
    (vk_instance : NativeInstance) (adapter_index : Option Nat)
    (vk_device : Device) (queue_family_index : Nat) (queue_index : Nat) :
    Outcome Context :=
  let flags : Nat := 0
  let flags := if env.debug_assertions then flags ||| halflags_VALIDATION else flags
  let flags := if env.debug_assertions then flags ||| halflags_DEBUG else flags
  match get_vulkan_instance_extensions env.required_extensions
      env.debug_assertions version with
  | .error e => .err e
  | .ok extensions =>
      match trace_err "Instance from_raw"
          (hal_instance_from_raw env.from_raw_fails vk_instance version
            extensions flags owned) with
      | .error e => .err e
      | .ok inst =>
          match get_vulkan_graphics_device env.enumerate_physical_devices
              adapter_index with
          | .crash => .crash
          | .err e => .err e
          | .ok physical_device =>
              match trace_none "expose_adapter"
                  (expose_adapter env.compatible physical_device) with
              | .error e => .err e
              | .ok exposed_adapter =>
                  match trace_err "device_from_raw"
                      (device_from_raw env.device_from_raw_fails vk_device
                        owned (get_vulkan_device_extensions version)
                        queue_family_index queue_index) with
                  | .error e => .err e
                  | .ok open_device =>
                      let instance' := WgpuInstance.mk inst
                      let adapter := WgpuAdapter.mk exposed_adapter
                      match trace_err "create_device_from_hal"
                          (create_device_from_hal
                            env.create_device_from_hal_fails adapter
                            open_device features_PUSH_CONSTANTS
                            env.adapter_limits) with
                      | .error e => .err e
                      | .ok (device, queue) =>
                          .ok { instance_ := instance'
                                device := device
                                queue := queue
                                raw_device := vk_device }

/-- Modelled from the spec: destroy-call counts against the native layer when
a `Context` is dropped (§5: Owned resources are released by the owning layer;
Borrowed resources are never released by this module; §9: the guard's release
is a no-op when Borrowed).  First component: destroy calls on the native
instance; second: on the native device. -/
def context_destroy_counts (ctx : Context) : Nat × Nat :=
  ((if ctx.instance_.hal.destroy_on_drop then 1 else 0),
    (if ctx.device.open_device.handle_is_owned then 1 else 0))

/-- The swapchain image count determined by the create data (§3: External ⇒
the supplied list's length, Count n ⇒ n, the `None` variant ⇒ 2). -/
def image_count : SwapchainCreateData → Nat
  | .External images => images.length
  | .Count count => count
  | .None => 2

/-- A texture carries the requested format, width/height extent, mip count,
array-layer count and sample count in both its abstraction-layer and
high-level descriptors. -/
def texture_matches (t : Texture) (format sample_count width height
    array_size mip_count : Nat) : Prop :=
  t.hal_desc.size = ⟨width, height, array_size⟩ ∧
  t.hal_desc.mip_level_count = mip_count ∧
  t.hal_desc.sample_count = sample_count ∧
  t.hal_desc.format = format ∧
  t.wgpu_desc.size = ⟨width, height, array_size⟩ ∧
  t.wgpu_desc.mip_level_count = mip_count ∧
  t.wgpu_desc.sample_count = sample_count ∧
  t.wgpu_desc.format = format

lemma alloc_images_length_of_ok
    (create_image : Nat → ImageCreateInfo → StrResult Image)
    (info : ImageCreateInfo) :
    ∀ (n start : Nat) (images : List Image),
      alloc_images create_image info start n = .ok images →
        images.length = n := by
  intro n
  induction n with
  | zero =>
      intro start images h
      simp only [alloc_images] at h
      cases h
      rfl
  | succ n ih =>
      intro start images h
      simp only [alloc_images] at h
      cases hc : create_image start info with
      | error e => rw [hc] at h; simp [trace_err] at h
      | ok image =>
          rw [hc] at h
          cases hr : alloc_images create_image info (start + 1) n with
          | error e => rw [hr] at h; simp [trace_err] at h
          | ok rest =>
              rw [hr] at h
              simp only [trace_err] at h
              cases h
              simp [ih (start + 1) rest hr]

lemma alloc_images_ok (create_image : Nat → ImageCreateInfo → StrResult Image)
    (info : ImageCreateInfo)
    (henv : ∀ i inf, ∃ im, create_image i inf = Except.ok im) :
    ∀ n start : Nat, ∃ images, alloc_images create_image info start n =
      .ok images := by
  intro n
  induction n with
  | zero => exact fun start => ⟨[], rfl⟩
  | succ n ih =>
      intro start
      obtain ⟨image, himage⟩ := henv start info
      obtain ⟨rest, hrest⟩ := ih (start + 1)
      exact ⟨image :: rest, by simp [alloc_images, trace_err, himage, hrest]⟩

end Convert

namespace Convert

/-- C7: `get_vulkan_device_extensions` is a pure function of the API version
that always includes the native swapchain extension, and includes each of the
two maintenance extensions exactly when the version is below 1.1 (so both are
present for every version < 1.1 and both absent for every version ≥ 1.1). -/
theorem device_extensions_spec (version : Nat) :
    swapchain_extension_name ∈ get_vulkan_device_extensions version ∧
    (maintenance1_extension_name ∈ get_vulkan_device_extensions version ↔
      version < API_VERSION_1_1) ∧
    (maintenance2_extension_name ∈ get_vulkan_device_extensions version ↔
      version < API_VERSION_1_1) := by
  unfold get_vulkan_device_extensions
  by_cases h : version < API_VERSION_1_1 <;>
    simp [h, swapchain_extension_name, maintenance1_extension_name,
      maintenance2_extension_name]

/-- C1 counterexample: with a successfully enumerated list of exactly one
physical device and adapter index 1 (out of range), `get_vulkan_graphics_device`
crashes (out-of-bounds panic in `Vec::remove`); it does not return a typed
failure result. -/
theorem graphics_device_out_of_range_crashes :
    get_vulkan_graphics_device (.ok [⟨0⟩]) (some 1) = Outcome.crash ∧
    (get_vulkan_graphics_device (.ok [⟨0⟩]) (some 1)).isErr = false := by
  constructor <;> rfl

/-- C1 (amended): for every enumerated device list, an adapter index (default
0) at or beyond the list length makes `get_vulkan_graphics_device` panic
(crash) rather than return a typed failure; a failure of the native
enumeration call itself is wrapped and returned as a typed failure result. -/
theorem graphics_device_amended (physical_devices : List PhysicalDevice)
    (adapter_index : Option Nat) :
    (physical_devices.length ≤ adapter_index.getD 0 →
      get_vulkan_graphics_device (.ok physical_devices) adapter_index =
        Outcome.crash) ∧
    (∀ e : String,
      get_vulkan_graphics_device (.error e) adapter_index =
        Outcome.err ("enumerate_physical_devices: " ++ e)) := by
  constructor
  · intro h
    unfold get_vulkan_graphics_device trace_err
    simp [Nat.not_lt.mpr h]
  · intro e
    rfl

/-- Witness for `graphics_device_amended` at the empty device list and an
unspecified adapter index. -/
theorem graphics_device_amended_witness :
    ([] : List PhysicalDevice).length ≤ (Option.none (α := Nat)).getD 0 ∧
    get_vulkan_graphics_device (.ok []) Option.none = Outcome.crash :=
  ⟨by decide, (graphics_device_amended [] Option.none).1 (by decide)⟩

/-- C8: the usage-flag translation is pure and additive: for every pair of
disjoint VR-runtime usage bitsets `a` and `b`, the componentwise bitwise union
of `translate_usage a` and `translate_usage b` equals
`translate_usage (a ||| b)`. -/
theorem translate_usage_additive (a b : Nat) (hdisj : a &&& b = 0) :
    usage_union (translate_usage a) (translate_usage b) =
      translate_usage (a ||| b) := by
  rw [translate_usage_eq_translateB a, translate_usage_eq_translateB b,
    translate_usage_eq_translateB (a ||| b)]
  simp only [Nat.testBit_lor]
  exact translateB_additive _ _ _ _ _ _ _ _ _ _ _ _

/-- C3: the device-creation call issued by `create_vulkan_device` uses a
feature struct with robust-buffer-access, independent-blend and
sample-rate-shading forced to true regardless of their caller-supplied
values, while all other feature fields keep the caller-supplied values. -/
theorem create_device_forces_features
    (create_device : PhysicalDevice → DeviceCreateInfo → StrResult Device)
    (version : Nat) (physical_device : PhysicalDevice)
    (create_info : DeviceCreateInfo) :
    (create_vulkan_device create_device version physical_device
        create_info).issued_info.p_enabled_features =
      { create_info.p_enabled_features with
          robust_buffer_access := true
          independent_blend := true
          sample_rate_shading := true } :=
  rfl

/-- C4: `create_vulkan_device` writes the three forced feature bits through
the caller's `p_enabled_features` pointer: after the call the caller's own
feature struct has them set to true, and whenever at least one of the three
was false on input the caller's feature struct is not left unchanged. -/
theorem create_device_mutates_caller
    (create_device : PhysicalDevice → DeviceCreateInfo → StrResult Device)
    (version : Nat) (physical_device : PhysicalDevice)
    (create_info : DeviceCreateInfo) :
    (create_vulkan_device create_device version physical_device
        create_info).caller_info.p_enabled_features =
      { create_info.p_enabled_features with
          robust_buffer_access := true
          independent_blend := true
          sample_rate_shading := true } ∧
    (create_info.p_enabled_features.robust_buffer_access = false ∨
      create_info.p_enabled_features.independent_blend = false ∨
      create_info.p_enabled_features.sample_rate_shading = false →
      (create_vulkan_device create_device version physical_device
          create_info).caller_info.p_enabled_features ≠
        create_info.p_enabled_features) := by
  refine ⟨rfl, fun h heq => ?_⟩
  rcases h with h | h | h
  · have hr : create_info.p_enabled_features.robust_buffer_access = true := by
      rw [← heq]; rfl
    rw [h] at hr
    exact Bool.false_ne_true hr
  · have hr : create_info.p_enabled_features.independent_blend = true := by
      rw [← heq]; rfl
    rw [h] at hr
    exact Bool.false_ne_true hr
  · have hr : create_info.p_enabled_features.sample_rate_shading = true := by
      rw [← heq]; rfl
    rw [h] at hr
    exact Bool.false_ne_true hr

/-- All-false feature struct, used as a sample input. -/
def no_features : PhysicalDeviceFeatures :=
  ⟨false, false, false, false, false, false, false, false, false, false⟩

/-- Sample `DeviceCreateInfo` with every feature disabled. -/
def sample_device_info : DeviceCreateInfo :=
  { flags := 0
    queue_create_infos := [⟨0, 1⟩]
    enabled_layer_names := []
    pp_enabled_extension_names := []
    p_enabled_features := no_features }

/-- A native device-creation oracle that always succeeds. -/
def ok_create_device : PhysicalDevice → DeviceCreateInfo → StrResult Device :=
  fun _ _ => .ok ⟨0⟩

/-- Witness for `create_device_mutates_caller` at an input whose three forced
feature bits are all false. -/
theorem create_device_mutates_caller_witness :
    (sample_device_info.p_enabled_features.robust_buffer_access = false ∨
      sample_device_info.p_enabled_features.independent_blend = false ∨
      sample_device_info.p_enabled_features.sample_rate_shading = false) ∧
    (create_vulkan_device ok_create_device TARGET_VULKAN_VERSION ⟨0⟩
        sample_device_info).caller_info.p_enabled_features ≠
      sample_device_info.p_enabled_features :=
  ⟨Or.inl rfl,
    (create_device_mutates_caller ok_create_device TARGET_VULKAN_VERSION ⟨0⟩
        sample_device_info).2 (Or.inl rfl)⟩

/-- C9: whenever the resolver succeeds with required extensions `req`,
`create_vulkan_instance` issues exactly one native instance-creation call, and
its `InstanceCreateInfo` is the input with its extension list replaced by
`req` followed by the caller-supplied extensions, in that order, with every
other field passed through unchanged. -/
theorem create_instance_merges
    (required_extensions : Nat → Nat → StrResult (List String))
    (debug_assertions : Bool)
    (do_create : InstanceCreateInfo → StrResult NativeInstance)
    (info : InstanceCreateInfo) (req : List String)
    (h : get_vulkan_instance_extensions required_extensions debug_assertions
        info.p_application_info.api_version = .ok req) :
    (create_vulkan_instance required_extensions debug_assertions do_create
        info).issued_calls =
      [{ info with
          pp_enabled_extension_names :=
            req ++ info.pp_enabled_extension_names }] := by
  unfold create_vulkan_instance
  rw [h]

/-- Sample `InstanceCreateInfo`. -/
def sample_instance_info : InstanceCreateInfo :=
  { flags := 0
    p_application_info :=
      { application_name := ""
        application_version := 0
        engine_name := ""
        engine_version := 0
        api_version := TARGET_VULKAN_VERSION }
    enabled_layer_names := []
    pp_enabled_extension_names := ["VK_EXT_caller_supplied"] }

/-- A resolver oracle that always returns one fixed extension. -/
def one_ext_resolver : Nat → Nat → StrResult (List String) :=
  fun _ _ => .ok ["VK_KHR_surface"]

/-- A native instance-creation oracle that always succeeds. -/
def ok_create_instance : InstanceCreateInfo → StrResult NativeInstance :=
  fun _ => .ok ⟨0⟩

/-- Witness for `create_instance_merges` at a resolver returning one required
extension and an input carrying one caller-supplied extension. -/
theorem create_instance_merges_witness :
    get_vulkan_instance_extensions one_ext_resolver false
        sample_instance_info.p_application_info.api_version =
      .ok ["VK_KHR_surface"] ∧
    (create_vulkan_instance one_ext_resolver false ok_create_instance
        sample_instance_info).issued_calls =
      [{ sample_instance_info with
          pp_enabled_extension_names :=
            ["VK_KHR_surface"] ++
              sample_instance_info.pp_enabled_extension_names }] :=
  ⟨rfl,
    create_instance_merges one_ext_resolver false ok_create_instance
      sample_instance_info ["VK_KHR_surface"] rfl⟩

/-- Witness for `translate_usage_additive` at the disjoint bitsets
`{color-attachment}` and `{sampled, transfer-src}`. -/
theorem translate_usage_additive_witness :
    (1 : Nat) &&& 40 = 0 ∧
    usage_union (translate_usage 1) (translate_usage 40) =
      translate_usage (1 ||| 40) :=
  ⟨by decide, translate_usage_additive 1 40 (by decide)⟩

/-- C5: for every list of native image handles, `create_swapchain` with
`External` data succeeds and returns a Swapchain whose raw-image sequence is
exactly that list in order, with every resulting texture's ownership resolved
to Borrowed and an empty memory-block list. -/
theorem create_swapchain_external
    (create_image : Nat → ImageCreateInfo → StrResult Image)
    (usage format vk_format sample_count width height : Nat) (cubemap : Bool)
    (array_size mip_count : Nat) (images : List Image) :
    ∃ s : Swapchain,
      create_swapchain create_image (.External images) usage format vk_format
        sample_count width height cubemap array_size mip_count = .ok s ∧
      s.raw_images = images ∧
      s.memory = [] ∧
      ∀ t ∈ s.textures, t.borrowed = true := by
  refine ⟨_, rfl, rfl, rfl, ?_⟩
  intro t ht
  simp only [create_swapchain, List.mem_map] at ht
  obtain ⟨image, _, rfl⟩ := ht
  rfl

/-- C6: when every native image-creation call succeeds, `create_swapchain`
with `Count n` returns a Swapchain with exactly `n` textures, each carrying
the requested format, width/height extent, mip count, array-layer count and
sample count with ownership Owned; with the `None` variant it returns exactly
2 images under the same metadata and ownership. -/
theorem create_swapchain_count_spec
    (create_image : Nat → ImageCreateInfo → StrResult Image)
    (usage format vk_format sample_count width height : Nat) (cubemap : Bool)
    (array_size mip_count n : Nat)
    (henv : ∀ i inf, ∃ im, create_image i inf = Except.ok im) :
    (∃ s : Swapchain,
      create_swapchain create_image (.Count n) usage format vk_format
        sample_count width height cubemap array_size mip_count = .ok s ∧
      s.textures.length = n ∧
      ∀ t ∈ s.textures,
        texture_matches t format sample_count width height array_size
          mip_count ∧ t.borrowed = false) ∧
    (∃ s : Swapchain,
      create_swapchain create_image .None usage format vk_format
        sample_count width height cubemap array_size mip_count = .ok s ∧
      s.textures.length = 2 ∧
      ∀ t ∈ s.textures,
        texture_matches t format sample_count width height array_size
          mip_count ∧ t.borrowed = false) := by
  constructor
  · obtain ⟨images, halloc⟩ := alloc_images_ok create_image _ henv n 0
    refine ⟨_, by simp only [create_swapchain]; rw [halloc], ?_, ?_⟩
    · simp [List.length_map,
        alloc_images_length_of_ok create_image _ n 0 images halloc]
    · intro t ht
      simp only [List.mem_map] at ht
      obtain ⟨image, _, rfl⟩ := ht
      exact ⟨⟨rfl, rfl, rfl, rfl, rfl, rfl, rfl, rfl⟩, rfl⟩
  · obtain ⟨images, halloc⟩ := alloc_images_ok create_image _ henv 2 0
    refine ⟨_, by simp only [create_swapchain]; rw [halloc], ?_, ?_⟩
    · simp [List.length_map,
        alloc_images_length_of_ok create_image _ 2 0 images halloc]
    · intro t ht
      simp only [List.mem_map] at ht
      obtain ⟨image, _, rfl⟩ := ht
      exact ⟨⟨rfl, rfl, rfl, rfl, rfl, rfl, rfl, rfl⟩, rfl⟩

/-- A native image-creation oracle that always succeeds with distinct
handles. -/
def ok_img : Nat → ImageCreateInfo → StrResult Image := fun i _ => .ok ⟨i⟩

/-- Witness for `create_swapchain_count_spec` at a concrete always-succeeding
native device, requesting 4 images. -/
theorem create_swapchain_count_spec_witness :
    (∃ s : Swapchain,
      create_swapchain ok_img (.Count 4) 35 7 43 1 1920 1080 false 2 1 =
        .ok s ∧
      s.textures.length = 4 ∧
      ∀ t ∈ s.textures,
        texture_matches t 7 1 1920 1080 2 1 ∧ t.borrowed = false) ∧
    (∃ s : Swapchain,
      create_swapchain ok_img .None 35 7 43 1 1920 1080 false 2 1 = .ok s ∧
      s.textures.length = 2 ∧
      ∀ t ∈ s.textures,
        texture_matches t 7 1 1920 1080 2 1 ∧ t.borrowed = false) :=
  create_swapchain_count_spec ok_img 35 7 43 1 1920 1080 false 2 1 4
    (fun i _ => ⟨⟨i⟩, rfl⟩)

/-- C10: every Swapchain returned by `create_swapchain`, for every create-data
variant, satisfies `len(textures) = len(rawImages) = swapchain image count`,
with the texture at each index built from the raw native image at the same
index. -/
theorem swapchain_invariant
    (create_image : Nat → ImageCreateInfo → StrResult Image)
    (data : SwapchainCreateData)
    (usage format vk_format sample_count width height : Nat) (cubemap : Bool)
    (array_size mip_count : Nat) (s : Swapchain)
    (h : create_swapchain create_image data usage format vk_format
      sample_count width height cubemap array_size mip_count = .ok s) :
    s.textures.length = s.raw_images.length ∧
    s.raw_images.length = image_count data ∧
    ∀ (i : Nat) (h1 : i < s.textures.length) (h2 : i < s.raw_images.length),
      (s.textures.get ⟨i, h1⟩).raw_image = s.raw_images.get ⟨i, h2⟩ := by
  cases data with
  | External images =>
      simp only [create_swapchain, Except.ok.injEq] at h
      subst h
      refine ⟨by simp, by simp [image_count], ?_⟩
      intro i h1 h2
      simp [List.get_eq_getElem, List.getElem_map]
  | Count n =>
      simp only [create_swapchain] at h
      cases halloc : alloc_images create_image
          { flags := if cubemap then vkflags_CUBE_COMPATIBLE else 0
            image_type := vk_TYPE_2D
            format := vk_format
            extent := { width := width, height := height, depth := 1 }
            mip_levels := mip_count
            array_layers := array_size
            samples := sample_count
            tiling := vk_TILING_OPTIMAL
            usage := (translate_usage usage).1
            sharing_mode := vk_SHARING_EXCLUSIVE
            initial_layout := vk_LAYOUT_UNDEFINED } 0 n with
      | error e => rw [halloc] at h; exact absurd h (by simp)
      | ok images =>
          rw [halloc] at h
          simp only [Except.ok.injEq] at h
          subst h
          refine ⟨by simp, ?_, ?_⟩
          · simpa [image_count] using
              alloc_images_length_of_ok create_image _ n 0 images halloc
          · intro i h1 h2
            simp [List.get_eq_getElem, List.getElem_map]
  | None =>
      simp only [create_swapchain] at h
      cases halloc : alloc_images create_image
          { flags := if cubemap then vkflags_CUBE_COMPATIBLE else 0
            image_type := vk_TYPE_2D
            format := vk_format
            extent := { width := width, height := height, depth := 1 }
            mip_levels := mip_count
            array_layers := array_size
            samples := sample_count
            tiling := vk_TILING_OPTIMAL
            usage := (translate_usage usage).1
            sharing_mode := vk_SHARING_EXCLUSIVE
            initial_layout := vk_LAYOUT_UNDEFINED } 0 2 with
      | error e => rw [halloc] at h; exact absurd h (by simp)
      | ok images =>
          rw [halloc] at h
          simp only [Except.ok.injEq] at h
          subst h
          refine ⟨by simp, ?_, ?_⟩
          · simpa [image_count] using
              alloc_images_length_of_ok create_image _ 2 0 images halloc
          · intro i h1 h2
            simp [List.get_eq_getElem, List.getElem_map]

/-- C2: every Context built by `from_vulkan` with `owned = false` (ownership
Borrowed) wraps the supplied native instance and device handles without the
module ever releasing them: dropping the Context issues zero destroy calls on
the native instance and zero on the native device, so both handles remain
valid for the caller. -/
theorem borrowed_context_preserves_handles (env : VulkanEnv) (version : Nat)
    (vk_instance : NativeInstance) (adapter_index : Option Nat)
    (vk_device : Device) (queue_family_index queue_index : Nat)
    (ctx : Context)
    (h : from_vulkan env false version vk_instance adapter_index vk_device
      queue_family_index queue_index = .ok ctx) :
    context_destroy_counts ctx = (0, 0) ∧
    ctx.instance_.hal.raw = vk_instance ∧
    ctx.device.open_device.raw = vk_device := by
  obtain ⟨dbg, reqext, enum, compat, frf, dfrf, cdfh, lim⟩ := env
  rcases hre : get_vulkan_instance_extensions reqext dbg version with e | extensions
  · simp only [from_vulkan, hre] at h
    exact Outcome.noConfusion h
  · cases frf with
    | some e =>
        simp only [from_vulkan, hre, hal_instance_from_raw, trace_err] at h
        exact Outcome.noConfusion h
    | none =>
        cases hgd : get_vulkan_graphics_device enum adapter_index with
        | crash =>
            simp only [from_vulkan, hre, hal_instance_from_raw, trace_err,
              hgd] at h
            exact Outcome.noConfusion h
        | err e =>
            simp only [from_vulkan, hre, hal_instance_from_raw, trace_err,
              hgd] at h
            exact Outcome.noConfusion h
        | ok physical_device =>
            cases hc : compat physical_device with
            | false =>
                simp only [from_vulkan, hre, hal_instance_from_raw, trace_err,
                  hgd, expose_adapter, hc, if_false, trace_none] at h
                exact Outcome.noConfusion h
            | true =>
                cases dfrf with
                | some e =>
                    simp only [from_vulkan, hre, hal_instance_from_raw,
                      trace_err, hgd, expose_adapter, hc, if_true, trace_none,
                      device_from_raw] at h
                    exact Outcome.noConfusion h
                | none =>
                    cases cdfh with
                    | some e =>
                        simp only [from_vulkan, hre, hal_instance_from_raw,
                          trace_err, hgd, expose_adapter, hc, if_true,
                          trace_none, device_from_raw,
                          create_device_from_hal] at h
                        exact Outcome.noConfusion h
                    | none =>
                        simp only [from_vulkan, hre, hal_instance_from_raw,
                          trace_err, hgd, expose_adapter, hc, if_true,
                          trace_none, device_from_raw, create_device_from_hal,
                          Outcome.ok.injEq] at h
                        subst h
                        exact ⟨rfl, rfl, rfl⟩

/-- A fully successful environment with one physical device. -/
def sample_env : VulkanEnv :=
  { debug_assertions := false
    required_extensions := fun _ _ => .ok []
    enumerate_physical_devices := .ok [⟨0⟩]
    compatible := fun _ => true
    from_raw_fails := none
    device_from_raw_fails := none
    create_device_from_hal_fails := none
    adapter_limits := 0 }

/-- The Context `from_vulkan` builds in `sample_env` with `owned = false`. -/
def sample_borrowed_context : Context :=
  { instance_ := ⟨⟨⟨1⟩, TARGET_VULKAN_VERSION, [], 0, false⟩⟩
    device := ⟨⟨⟨2⟩, false, get_vulkan_device_extensions
      TARGET_VULKAN_VERSION, 0, 0⟩, features_PUSH_CONSTANTS, 0⟩
    queue := ⟨0, 0⟩
    raw_device := ⟨2⟩ }

/-- Witness for `borrowed_context_preserves_handles` in `sample_env`. -/
theorem borrowed_context_preserves_handles_witness :
    from_vulkan sample_env false TARGET_VULKAN_VERSION ⟨1⟩ Option.none ⟨2⟩ 0 0 =
      .ok sample_borrowed_context ∧
    (context_destroy_counts sample_borrowed_context = (0, 0) ∧
      sample_borrowed_context.instance_.hal.raw = ⟨1⟩ ∧
      sample_borrowed_context.device.open_device.raw = ⟨2⟩) :=
  ⟨by rfl,
    borrowed_context_preserves_handles sample_env TARGET_VULKAN_VERSION ⟨1⟩
      Option.none ⟨2⟩ 0 0 sample_borrowed_context (by rfl)⟩

/-- Witness for `swapchain_invariant` at the empty external image list. -/
theorem swapchain_invariant_witness :
    create_swapchain ok_img (.External []) 0 0 0 1 16 16 false 1 1 =
      .ok ⟨[], [], [], 1⟩ ∧
    ((⟨[], [], [], 1⟩ : Swapchain).textures.length =
        (⟨[], [], [], 1⟩ : Swapchain).raw_images.length ∧
      (⟨[], [], [], 1⟩ : Swapchain).raw_images.length =
        image_count (.External []) ∧
      ∀ (i : Nat) (h1 : i < (⟨[], [], [], 1⟩ : Swapchain).textures.length)
        (h2 : i < (⟨[], [], [], 1⟩ : Swapchain).raw_images.length),
        ((⟨[], [], [], 1⟩ : Swapchain).textures.get ⟨i, h1⟩).raw_image =
          (⟨[], [], [], 1⟩ : Swapchain).raw_images.get ⟨i, h2⟩) :=
  ⟨rfl, swapchain_invariant ok_img (.External []) 0 0 0 1 16 16 false 1 1
    ⟨[], [], [], 1⟩ rfl⟩

end Convert
